import Mathlib

/-!
Verification development for the hikvision doorbell audio gateway.

Each Go component relevant to the specification's claims is shallowly
embedded as executable Lean definitions: bytes are `Nat`, byte strings are
`List Nat`, durations are nanosecond counts (`Nat`), fallible calls return
`Except`, and the effect of a handler on its collaborators is captured as an
explicit list of events.  The theorems at the end of the file settle the
spec's claims about those definitions.
-/

/-- One entry of the device's channel listing
(`TwoWayAudioChannel` in `src/unnamed/part_004`): `enabled` is the raw XML
string; the value `"false"` marks the channel as available. -/
structure TwoWayAudioChannel where
  id : String
  enabled : String
deriving Repr, DecidableEq

/-- An opened audio session (`AudioSession` in `src/unnamed/part_004` and
`src/unnamed/part_001`). -/
structure AudioSession where
  channelID : String
  sessionID : String
deriving Repr, DecidableEq

namespace Client

/-- An HTTP response from the device as seen by the transport layer: status
code, `WWW-Authenticate` header value (`""` when the header is missing,
matching Go's `Header.Get`), and the body, generic in its payload type. -/
structure HTTPResponse (α : Type) where
  status : Nat
  wwwAuthenticate : String
  body : α
deriving Repr, DecidableEq

/-- `retryRoundTripper.RoundTrip` (`src/unnamed/part_004` lines 85-107).
The outcomes of the underlying digest transport's first and (potential)
second round trips are the inputs `first` and `retry`.  A transport error is
returned immediately.  A 401 response whose `WWW-Authenticate` header is
missing or empty has its body closed and the same request is retried once,
the retry's outcome being returned verbatim; every other response is
returned as is.  The boolean records whether the first response's body was
closed and the retry issued. -/
def RoundTrip {α : Type} (first retry : Except String (HTTPResponse α)) :
    Except String (HTTPResponse α) × Bool :=
  match first with
  | .error e => (.error e, false)
  | .ok resp =>
    if resp.status = 401 then
      if resp.wwwAuthenticate = "" then (retry, true)
      else (.ok resp, false)
    else (.ok resp, false)

/-- Errors surfaced by the channel-listing call, distinguishing the sources
in the Go code: a transport error, a non-200 status, and an unparseable
body. -/
inductive ClientError
  | transportError (e : String)
  | protocolError (status : Nat)
  | parseError
deriving Repr, DecidableEq

/-- `Client.getTwoWayAudioChannels` (`src/unnamed/part_004` lines 119-160),
embedded over the retry-wrapped transport: the request goes through
`RoundTrip` (the client built by `NewClient` installs `retryRoundTripper`
as its transport), a non-200 status is a protocol error, and the XML body
is decoded by the library function `xml.Unmarshal`, modelled by the
abstract `parse` input (`none` = malformed). -/
def GetTwoWayAudioChannels (parse : String → Option (List TwoWayAudioChannel))
    (first retry : Except String (HTTPResponse String)) :
    Except ClientError (List TwoWayAudioChannel) :=
  match (RoundTrip first retry).1 with
  | .error e => .error (.transportError e)
  | .ok resp =>
    if resp.status = 200 then
      match parse resp.body with
      | none => .error .parseError
      | some channels => .ok channels
    else .error (.protocolError resp.status)

end Client

namespace SessionManager

/-- Error outcomes of `AcquireChannel`, distinguishing the three sources the
Go code can propagate: a failed listing, `ErrNoAvailableChannels`, and a
failed open. -/
inductive AcquireError
  | listError (e : String)
  | noAvailableChannels
  | openError (e : String)
deriving Repr, DecidableEq

/-- `Client.OpenAudioChannel` (`src/unnamed/part_004` lines 163-203): on a
successful open the device's parsed `sessionId` is combined with the channel
id that was passed in.  The device's response is the input `openResp`. -/
def OpenAudioChannel (openResp : String → Except String String)
    (channelID : String) : Except String AudioSession :=
  match openResp channelID with
  | .error e => .error e
  | .ok sid => .ok ⟨channelID, sid⟩

/-- `HikvisionSessionManager.AcquireChannel`
(`src/internal/session/hikvision.go` lines 24-75), embedded over the device
listing outcome and open outcome.  Mirrors the source exactly: a listing
error propagates; an empty listing yields `ErrNoAvailableChannels`; the loop
`for _, ch := range channels` assigns `channelID = ch.ID` for the first
channel with `Enabled == "false"` into a variable initialised to `""`, and
`channelID == ""` afterwards yields `ErrNoAvailableChannels`; otherwise that
channel is opened.  The second component of the result is the list of
channel ids for which an open request was issued. -/
def AcquireChannel (listing : Except String (List TwoWayAudioChannel))
    (openResp : String → Except String String) :
    Except AcquireError AudioSession × List String :=
  match listing with
  | .error e => (.error (.listError e), [])
  | .ok channels =>
    if channels = [] then (.error .noAvailableChannels, [])
    else
      let channelID :=
        match channels.find? (fun ch => ch.enabled == "false") with
        | some ch => ch.id
        | none => ""
      if channelID = "" then (.error .noAvailableChannels, [])
      else
        match OpenAudioChannel openResp channelID with
        | .error e => (.error (.openError e), [channelID])
        | .ok s => (.ok s, [channelID])

end SessionManager

namespace Session

/-- A channel as reported by the session manager's bulk listing, the shape
fixed by its uses in `src/internal/api/abort.go` (`ch.ID`, `ch.Enabled` of
type `bool`): `enabled == true` means the channel is currently in use. -/
structure Channel where
  id : String
  enabled : Bool
deriving Repr, DecidableEq

end Session

namespace AbortManager

/-- `OperationType` (`src/internal/api/abort.go` lines 13-18). -/
inductive OperationType
  | playFile
  | webRTC
deriving Repr, DecidableEq

/-- A tracked operation (`Operation` in `src/internal/api/abort.go` lines
21-25).  `opId` stands for the identity of the Go struct pointer, so that
distinct registered operations are distinct values; the cancellation
handle and cleanup wait-group are represented by the events recorded about
them. -/
structure Operation where
  type : OperationType
  opId : Nat
deriving Repr, DecidableEq

/-- `Operation.IsPlayFile` (`src/internal/api/abort.go` lines 27-29). -/
def Operation.IsPlayFile (o : Operation) : Bool :=
  decide (o.type = OperationType.playFile)

/-- `Operation.IsWebRTC` (`src/internal/api/abort.go` lines 31-33). -/
def Operation.IsWebRTC (o : Operation) : Bool :=
  decide (o.type = OperationType.webRTC)

/-- `AbortManager.HasActiveOperation` (`src/internal/api/abort.go` lines
114-119): `len(am.activeOps) > 0` under the lock. -/
def HasActiveOperation (activeOps : List Operation) : Bool :=
  decide (0 < activeOps.length)

/-- `AbortManager.HasActiveWebRTC` (`src/internal/api/abort.go` lines
122-132): scans the tracked operations for one of type WebRTC. -/
def HasActiveWebRTC (activeOps : List Operation) : Bool :=
  activeOps.any Operation.IsWebRTC

/-- The loop of `AbortManager.AbortPlayFileOperations`
(`src/internal/api/abort.go` lines 91-100): each tracked operation is either
a PlayFile operation — its cancellation handle is invoked and its `Cleanup`
wait-group collected (second component, in registry order) — or it is kept
in `newActiveOps` (first component, in registry order). -/
def abortPlayFileLoop : List Operation → List Operation × List Operation
  | [] => ([], [])
  | op :: rest =>
    let (newActive, waits) := abortPlayFileLoop rest
    if op.IsPlayFile then (newActive, op :: waits)
    else (op :: newActive, waits)

/-- `AbortManager.AbortPlayFileOperations` (`src/internal/api/abort.go`
lines 84-111): under the lock, every tracked PlayFile operation is
cancelled and its wait-group collected while the others are kept;
`am.activeOps` is replaced by the kept list; after unlocking, each
collected wait-group is waited on before the function returns.  Result:
(new registry contents, operations cancelled and waited on, in order). -/
def AbortPlayFileOperations (activeOps : List Operation) :
    List Operation × List Operation :=
  abortPlayFileLoop activeOps

/-- The channel-release loop of `AbortManager.AbortAll`
(`src/internal/api/abort.go` lines 168-179): every listed channel with
`Enabled == true` gets a `ReleaseChannel` call; a release failure is only
logged and the loop continues with the remaining channels; successes are
counted.  Result: (ids for which a release was attempted, in order,
success count). -/
def releaseLoop (release : String → Except String Unit) :
    List Session.Channel → List String × Nat
  | [] => ([], 0)
  | ch :: rest =>
    if ch.enabled then
      let (attempts, closed) := releaseLoop release rest
      match release ch.id with
      | .error _ => (ch.id :: attempts, closed)
      | .ok _ => (ch.id :: attempts, closed + 1)
    else releaseLoop release rest

/-- The observable outcome of one `AbortAll` call. -/
structure AbortAllResult where
  cancelled : List Operation
  waited : List Operation
  newActiveOps : List Operation
  releaseAttempts : List String
  releasedCount : Nat
  result : Except String Unit
deriving Repr

/-- `AbortManager.AbortAll` (`src/internal/api/abort.go` lines 135-183):
under the lock every tracked operation (of both types) is cancelled and its
wait-group collected, and `am.activeOps` is cleared; after unlocking, all
collected wait-groups are waited on; then the session manager's channel
listing (input `listing`) is consulted — a listing error is returned as
`AbortAll`'s error with no release attempted, otherwise every channel
reported enabled gets a best-effort release (input `release` gives the
device's response per channel id) and `nil` is returned. -/
def AbortAll (activeOps : List Operation)
    (listing : Except String (List Session.Channel))
    (release : String → Except String Unit) : AbortAllResult :=
  match listing with
  | .error e => ⟨activeOps, activeOps, [], [], 0, .error e⟩
  | .ok channels =>
    let (attempts, closed) := releaseLoop release channels
    ⟨activeOps, activeOps, [], attempts, closed, .ok ()⟩

/-- The ordered observable actions of an abort call: invoking an
operation's cancellation handle, overwriting `am.activeOps` (the only
registry mutation, performed under the lock), waiting on an operation's
cleanup wait-group, and returning. -/
inductive AbortEvent
  | cancelOp (o : Operation)
  | updateRegistry
  | waitCleanup (o : Operation)
  | ret
deriving Repr, DecidableEq

/-- Action order of `AbortPlayFileOperations` as written in
`src/internal/api/abort.go` lines 84-111: the cancellation handles of the
tracked PlayFile operations are invoked inside the lock-protected loop, the
registry is overwritten (`am.activeOps = newActiveOps`), the lock is
dropped, and only then are the cleanup wait-groups waited on. -/
def AbortPlayFileTrace (activeOps : List Operation) : List AbortEvent :=
  ((activeOps.filter Operation.IsPlayFile).map .cancelOp)
    ++ [.updateRegistry]
    ++ ((activeOps.filter Operation.IsPlayFile).map .waitCleanup)
    ++ [.ret]

/-- Action order of `AbortAll` as written in `src/internal/api/abort.go`
lines 135-159: every tracked operation is cancelled inside the
lock-protected loop, the registry is cleared (`am.activeOps =
make([]*Operation, 0)`), the lock is dropped, and only then are the cleanup
wait-groups waited on. -/
def AbortAllTrace (activeOps : List Operation) : List AbortEvent :=
  (activeOps.map .cancelOp)
    ++ [.updateRegistry]
    ++ (activeOps.map .waitCleanup)
    ++ [.ret]

/-- Calls a request handler can make into the abort manager. -/
inductive RegistryCall
  | registerOp (t : OperationType)
  | unregisterOp
  | abortPlayFileOps
deriving Repr, DecidableEq

end AbortManager

namespace WebRTCHandler

/-- HTTP outcome of `WebRTCHandler.HandleOffer`: a 400 for an undecodable
offer, a 500 from any of the internal failure branches, or a successful
SDP answer. -/
inductive OfferOutcome
  | badRequest
  | serverError
  | answerSent
deriving Repr, DecidableEq

/-- `WebRTCHandler.HandleOffer` (`src/internal/api/webrtc.go` lines
35-336), embedded as its decision sequence.  The boolean inputs are the
success/failure of the fallible steps in source order: decoding the offer,
`SetEphemeralUDPPortRange`, `NewPeerConnection`,
`NewTrackLocalStaticSample`, `AddTrack`, `SetRemoteDescription`,
`CreateAnswer`, `SetLocalDescription`; when all succeed the handler waits
for ICE gathering and writes the answer.  `activeOps` is the abort
manager's registry; the source function never touches it — the
`WebRTCHandler` struct has no abort-manager field, and the function body
contains no conflict check, no `Register` and no `AbortPlayFileOperations`
call — so the result does not depend on it and the emitted list of
registry calls is empty on every path. -/
def HandleOffer (activeOps : List AbortManager.Operation)
    (decodeOk setPortRangeOk newPeerConnOk newTrackOk addTrackOk
      setRemoteOk createAnswerOk setLocalOk : Bool) :
    OfferOutcome × List AbortManager.RegistryCall :=
  if !decodeOk then (.badRequest, [])
  else if !setPortRangeOk then (.serverError, [])
  else if !newPeerConnOk then (.serverError, [])
  else if !newTrackOk then (.serverError, [])
  else if !addTrackOk then (.serverError, [])
  else if !setRemoteOk then (.serverError, [])
  else if !createAnswerOk then (.serverError, [])
  else if !setLocalOk then (.serverError, [])
  else (.answerSent, [])

end WebRTCHandler

namespace PlayFileHandler

/-- HTTP outcome of `HandlePlayFile`: 400 for a bad upload, 500 for a read
failure, channel-acquisition failure or write failure, a silent return when
the request context is cancelled, or 200 on success. -/
inductive PlayFileOutcome
  | badRequest
  | readError
  | channelError
  | writeError
  | cancelledSilently
  | success
deriving Repr, DecidableEq

/-- `HandlePlayFile` (`src/internal/api/playfile.go` lines 16-114),
embedded as its decision sequence.  Inputs: success of the multipart-form
parse, of the `FormFile` lookup and of reading the upload; the uploaded
bytes; the session manager's acquisition outcome; whether all chunked
writes succeed; whether the request context is cancelled.  On the success
path the handler waits `time.Duration(len(audioData)) * time.Second / 8000`
(the last component, in nanoseconds) before responding.  `activeOps` is the
abort manager's registry; the source function never touches it — it calls
no `HasActiveOperation`, registers nothing and aborts nothing — so the
result does not depend on it and the emitted list of registry calls is
empty on every path.  The third component lists the channels released by
the deferred `ReleaseChannel`. -/
def HandlePlayFile (activeOps : List AbortManager.Operation)
    (parseFormOk formFileOk readOk : Bool) (audioData : List Nat)
    (acquire : Except String AudioSession) (writeOk ctxCancelled : Bool) :
    PlayFileOutcome × List AbortManager.RegistryCall × List String × Nat :=
  if !parseFormOk then (.badRequest, [], [], 0)
  else if !formFileOk then (.badRequest, [], [], 0)
  else if !readOk then (.readError, [], [], 0)
  else
    match acquire with
    | .error _ => (.channelError, [], [], 0)
    | .ok session =>
      if ctxCancelled then (.cancelledSilently, [], [session.channelID], 0)
      else if !writeOk then (.writeError, [], [session.channelID], 0)
      else (.success, [], [session.channelID],
        audioData.length * 1000000000 / 8000)

end PlayFileHandler

namespace AudioStreamReader

/-- State of the `AudioStreamReader` buffering layer as seen by `Read`
(`src/unnamed/part_003`): `buffer` holds the unreturned remainder of the
most recently dequeued chunk (field `buffer`), `queue` holds the chunks the
pump goroutine has pushed into `dataChan` and that have not yet been
dequeued, oldest first. -/
structure ReaderState where
  buffer : List Nat
  queue : List (List Nat)
deriving Repr, DecidableEq

/-- All bytes still retrievable from the reader: the partial-chunk carry-over
followed by the queued chunks in arrival order. -/
def ReaderState.pending (s : ReaderState) : List Nat :=
  s.buffer ++ s.queue.flatten

/-- One call of `AudioStreamReader.Read` with a caller buffer of `size`
bytes, embedded from `src/unnamed/part_003` lines 124-149.  If the
carry-over buffer is non-empty, Go's `copy(p, a.buffer)` moves
`min size buffer.length` bytes out of it and no new chunk is pulled.
Otherwise the next chunk is received from `dataChan`; `copy(p, data)` moves
`min size data.length` bytes and the remainder (if any) becomes the new
carry-over buffer.  `none` models the branches in which no data is
available and the call blocks or returns an error/EOF (no bytes are ever
delivered on those paths). -/
def readStep (size : Nat) (s : ReaderState) : Option (List Nat × ReaderState) :=
  if s.buffer ≠ [] then
    let n := min size s.buffer.length
    some (s.buffer.take n, ⟨s.buffer.drop n, s.queue⟩)
  else
    match s.queue with
    | [] => none
    | data :: rest =>
      let n := min size data.length
      some (data.take n, ⟨data.drop n, rest⟩)

/-- A sequence of consumer `Read` calls with the given buffer sizes; returns
the concatenation of all delivered bytes and the final reader state.  The
run stops early if a call finds no data (blocking/EOF path). -/
def runReads (sizes : List Nat) (s : ReaderState) : List Nat × ReaderState :=
  match sizes with
  | [] => ([], s)
  | size :: rest =>
    match readStep size s with
    | none => ([], s)
    | some (out, s') =>
      let (outs, s'') := runReads rest s'
      (out ++ outs, s'')

/-- Program counter of the pump goroutine `streamLoop`
(`src/unnamed/part_003` lines 50-121): at the head of the `for` loop's
`select`, inside the `default` branch about to call `resp.Body.Read`, or
returned. -/
inductive PumpPC
  | loopHead
  | reading
  | exited
deriving Repr, DecidableEq

/-- Shared state of the pump goroutine and `Close` callers: the pump's
program counter, whether `a.stopChan` has been closed, whether
`a.closeOnce` has fired, and whether the first `Close` call has returned. -/
structure CloseState where
  pumpPC : PumpPC
  stopClosed : Bool
  onceUsed : Bool
  closeReturned : Bool
deriving Repr, DecidableEq

/-- Observable events in the shutdown protocol of `AudioStreamReader`
(`src/unnamed/part_003` lines 50-121 and 152-159). -/
inductive CloseEvt
  | selectDefault
  | bodyRead
  | pumpExit
  | closeBegin
  | closeReturn
  | close2Return
deriving Repr, DecidableEq

/-- Interleaved small-step semantics of the pump goroutine and `Close`.
The pump at the loop head takes the `default` branch only while `stopChan`
is not closed (`selectDefault`), then performs `resp.Body.Read`
(`bodyRead`) and returns to the loop head; it may leave `streamLoop` from
any live location (`pumpExit` over-approximates the exit paths: the
`stopChan` select case, the stop case of the nested send, a read error, an
EOF, and the pre-loop request failures), upon which its deferred
`wg.Done()` runs.  The first `Close` call fires `closeOnce` and closes
`stopChan` (`closeBegin`); it returns (`closeReturn`) only once `wg.Wait()`
has seen the pump exit.  A second `Close` call is suppressed by
`closeOnce.Do` — it waits for the first call's function to complete (the
pump must have exited) and changes nothing (`close2Return`). -/
inductive CloseStep : CloseState → CloseEvt → CloseState → Prop
  | selectDefault (s : CloseState) :
      s.pumpPC = .loopHead → s.stopClosed = false →
      CloseStep s .selectDefault { s with pumpPC := .reading }
  | bodyRead (s : CloseState) :
      s.pumpPC = .reading →
      CloseStep s .bodyRead { s with pumpPC := .loopHead }
  | pumpExit (s : CloseState) :
      s.pumpPC ≠ .exited →
      CloseStep s .pumpExit { s with pumpPC := .exited }
  | closeBegin (s : CloseState) :
      s.onceUsed = false →
      CloseStep s .closeBegin { s with onceUsed := true, stopClosed := true }
  | closeReturn (s : CloseState) :
      s.onceUsed = true → s.closeReturned = false → s.pumpPC = .exited →
      CloseStep s .closeReturn { s with closeReturned := true }
  | close2Return (s : CloseState) :
      s.onceUsed = true → s.pumpPC = .exited →
      CloseStep s .close2Return s

/-- Finite executions of the shutdown protocol: `Reaches s tr s'` when the
event list `tr` leads from `s` to `s'` via `CloseStep`. -/
inductive Reaches : CloseState → List CloseEvt → CloseState → Prop
  | refl (s : CloseState) : Reaches s [] s
  | step {s s' s'' : CloseState} {e : CloseEvt} {tr : List CloseEvt} :
      CloseStep s e s' → Reaches s' tr s'' → Reaches s (e :: tr) s''

/-- Initial state: the pump at its loop head, `stopChan` open, `closeOnce`
unused, `Close` not yet returned. -/
def initState : CloseState := ⟨.loopHead, false, false, false⟩

end AudioStreamReader

namespace AudioStreamWriter

/-- Pacing delay after forwarding one chunk, in nanoseconds
(`src/internal/hikvision/stream_writer.go` line 166:
`time.Duration(len(data)) * time.Second / 8000`). -/
def ChunkDuration (data : List Nat) : Nat :=
  data.length * 1000000000 / 8000

/-- Transmission instants of the send loop
(`src/internal/hikvision/stream_writer.go` lines 144-173) for the queued
chunks, starting at time `t`: each chunk is written to the connection and
then the loop sleeps for the chunk's playback duration before the next
chunk can be written.  Writes are taken as instantaneous and sleeps as
exact, so the instants are the earliest times the real loop can reach. -/
def sendInstantsFrom : List (List Nat) → Nat → List Nat
  | [], _ => []
  | c :: rest, t => t :: sendInstantsFrom rest (t + ChunkDuration c)

/-- Transmission instants with the first chunk written at time 0. -/
def SendInstants (chunks : List (List Nat)) : List Nat :=
  sendInstantsFrom chunks 0

/-- Time at which the send loop has finished the pacing sleep following the
last of the given chunks, starting at time `t`. -/
def loopEndFrom : List (List Nat) → Nat → Nat
  | [], t => t
  | c :: rest, t => loopEndFrom rest (t + ChunkDuration c)

/-- Completion time of the pacing sleep after the last chunk, first chunk
written at time 0. -/
def LoopEnd (chunks : List (List Nat)) : Nat :=
  loopEndFrom chunks 0

/-- Total payload size in bytes across the queued chunks. -/
def TotalBytes (chunks : List (List Nat)) : Nat :=
  (chunks.map List.length).sum

end AudioStreamWriter

namespace AudioStreamReader

theorem readStep_conserves (size : Nat) (s : ReaderState) (out : List Nat)
    (s' : ReaderState) (h : readStep size s = some (out, s')) :
    out ++ s'.pending = s.pending := by
  unfold readStep at h
  split at h
  · simp only [Option.some.injEq, Prod.mk.injEq] at h
    obtain ⟨rfl, rfl⟩ := h
    simp only [ReaderState.pending, ← List.append_assoc, List.take_append_drop]
  · rename_i hb
    push_neg at hb
    split at h
    · exact absurd h (by simp)
    · rename_i data rest hq
      simp only [Option.some.injEq, Prod.mk.injEq] at h
      obtain ⟨rfl, rfl⟩ := h
      simp only [ReaderState.pending, hb, hq, List.flatten_cons, List.nil_append,
        ← List.append_assoc, List.take_append_drop]

theorem runReads_conserves (sizes : List Nat) (s : ReaderState) :
    (runReads sizes s).1 ++ (runReads sizes s).2.pending = s.pending := by
  induction sizes generalizing s with
  | nil => simp [runReads]
  | cons size rest ih =>
    unfold runReads
    match hstep : readStep size s with
    | none => simp
    | some (out, s') =>
      have := readStep_conserves size s out s' hstep
      simp only []
      rw [List.append_assoc, ih s', this]

/-- Claim C4: for every sequence of chunks pumped into the reader's queue
and every sequence of consumer `Read` calls with arbitrary buffer sizes,
the concatenation of the bytes returned by `Read` equals the concatenation
of the pumped chunks in order (here: whenever the reads have drained the
reader, their output is exactly the flattened chunk sequence — no byte is
dropped, duplicated, or reordered); moreover, while the carry-over buffer
is non-empty a `Read` serves bytes from it and pulls no new chunk from the
queue. -/
theorem C4_reader_roundtrip :
    (∀ (chunks : List (List Nat)) (sizes : List Nat) (out : List Nat)
        (s' : ReaderState),
      runReads sizes ⟨[], chunks⟩ = (out, s') →
      s'.buffer = [] → s'.queue = [] → out = chunks.flatten) ∧
    (∀ (size : Nat) (s : ReaderState), s.buffer ≠ [] →
      readStep size s =
        some (s.buffer.take (min size s.buffer.length),
          ⟨s.buffer.drop (min size s.buffer.length), s.queue⟩)) := by
  constructor
  · intro chunks sizes out s' hrun hbuf hq
    have h := runReads_conserves sizes ⟨[], chunks⟩
    rw [hrun] at h
    simpa [ReaderState.pending, hbuf, hq] using h
  · intro size s hs
    simp [readStep, hs]

/-- Witness for C4 at a concrete input: pump chunks `[1,2,3]` and `[4,5]`,
read with buffer sizes `2, 2, 1, 9`; the reads return `[1,2], [3], [4], [5]`
whose concatenation is the full byte sequence. -/
theorem C4_reader_roundtrip_witness : ([1, 2, 3, 4, 5] : List Nat) =
    ([[1, 2, 3], [4, 5]] : List (List Nat)).flatten :=
  C4_reader_roundtrip.1 [[1, 2, 3], [4, 5]] [2, 2, 1, 9] [1, 2, 3, 4, 5]
    ⟨[], []⟩ (by decide) (by decide) (by decide)

end AudioStreamReader

namespace Client

/-- Claim C5: a device response with status 401 and a missing or empty
WWW-Authenticate challenge has its body closed and the identical request
retried exactly once, the retry's outcome being returned to the caller
unchanged; any other transport outcome — a transport error, a 401 with a
non-empty challenge, or any other status — is returned immediately with no
retry; and the mechanism is invisible to callers such as the channel
listing, which succeeds when the retry succeeds. -/
theorem C5_empty_challenge_retry :
    (∀ (α : Type) (first retry : Except String (HTTPResponse α)),
      (∀ resp, first = .ok resp → resp.status = 401 →
        resp.wwwAuthenticate = "" → RoundTrip first retry = (retry, true)) ∧
      (∀ resp, first = .ok resp →
        (resp.status = 401 → resp.wwwAuthenticate ≠ "") →
        RoundTrip first retry = (.ok resp, false)) ∧
      (∀ e, first = .error e → RoundTrip first retry = (.error e, false))) ∧
    (∀ (parse : String → Option (List TwoWayAudioChannel))
        (b1 b2 w2 : String) (channels : List TwoWayAudioChannel),
      parse b2 = some channels →
      GetTwoWayAudioChannels parse (.ok ⟨401, "", b1⟩) (.ok ⟨200, w2, b2⟩)
        = .ok channels) := by
  constructor
  · intro α first retry
    refine ⟨?_, ?_, ?_⟩
    · rintro resp rfl h401 hempty
      simp [RoundTrip, h401, hempty]
    · rintro resp rfl hother
      by_cases h401 : resp.status = 401
      · have hne := hother h401
        simp [RoundTrip, h401, hne]
      · simp [RoundTrip, h401]
    · rintro e rfl
      rfl
  · intro parse b1 b2 w2 channels hparse
    simp [GetTwoWayAudioChannels, RoundTrip, hparse]

/-- Witness for C5 at a concrete input: the first channel-list request is
answered 401 with an empty challenge, the retried request succeeds with a
parseable body; the caller receives the channel list with no error. -/
theorem C5_empty_challenge_retry_witness :
    GetTwoWayAudioChannels (fun _ => some [⟨"1", "false"⟩])
      (.ok ⟨401, "", "x"⟩) (.ok ⟨200, "", "y"⟩) = .ok [⟨"1", "false"⟩] :=
  C5_empty_challenge_retry.2 (fun _ => some [⟨"1", "false"⟩]) "x" "y" ""
    [⟨"1", "false"⟩] rfl

end Client

namespace SessionManager

/-- Counterexample to C8 as stated: the device lists a single channel whose
id is the empty string and whose `enabled` is `"false"`.  That channel is
the first (and only) one with `enabled == "false"` and opening it would
succeed, yet `AcquireChannel` returns `ErrNoAvailableChannels` and opens
nothing, because the selection loop uses the empty string as its not-found
sentinel. -/
theorem C8_counterexample :
    AcquireChannel (.ok [⟨"", "false"⟩]) (fun _ => .ok "sessionA")
      = (.error .noAvailableChannels, []) ∧
    ([(⟨"", "false"⟩ : TwoWayAudioChannel)].find?
      (fun ch => ch.enabled == "false")) = some ⟨"", "false"⟩ :=
  ⟨rfl, rfl⟩

/-- Claim C8 (amended): `AcquireChannel` selects the first listed channel
with `enabled == "false"`; provided that channel's id is non-empty, a
successful open yields a session whose `channelID` is exactly that id and
exactly that channel is opened; `NoAvailableChannels` is returned, with no
open attempted, whenever the listing is empty or contains no channel with
`enabled == "false"`, and also in the corner case where the first such
channel's id is the empty string (the not-found sentinel of the selection
loop). -/
theorem C8_acquire_first_available :
    ∀ (channels : List TwoWayAudioChannel)
      (openResp : String → Except String String) (sid : String),
      (channels.find? (fun ch => ch.enabled == "false") = none →
        AcquireChannel (.ok channels) openResp
          = (.error .noAvailableChannels, [])) ∧
      (∀ ch, channels.find? (fun ch => ch.enabled == "false") = some ch →
        (ch.id = "" → AcquireChannel (.ok channels) openResp
          = (.error .noAvailableChannels, [])) ∧
        (ch.id ≠ "" → openResp ch.id = .ok sid →
          AcquireChannel (.ok channels) openResp
            = (.ok ⟨ch.id, sid⟩, [ch.id]))) := by
  intro channels openResp sid
  constructor
  · intro hnone
    unfold AcquireChannel
    by_cases hc : channels = []
    · simp [hc]
    · simp [hc, hnone]
  · intro ch hsome
    have hc : channels ≠ [] := by
      intro h
      rw [h] at hsome
      simp at hsome
    constructor
    · intro hid
      simp [AcquireChannel, hc, hsome, hid]
    · intro hid hopen
      simp [AcquireChannel, hc, hsome, hid, OpenAudioChannel, hopen]

/-- Witness for the amended C8 at a concrete input: listing
`[(id "1", enabled "false")]` with a successful open produces a session on
channel `"1"` and opens exactly that channel. -/
theorem C8_acquire_first_available_witness :
    AcquireChannel (.ok [⟨"1", "false"⟩]) (fun _ => .ok "abc")
      = (.ok ⟨"1", "abc"⟩, ["1"]) :=
  ((C8_acquire_first_available [⟨"1", "false"⟩] (fun _ => .ok "abc")
    "abc").2 ⟨"1", "false"⟩ rfl).2 (by decide) rfl

end SessionManager

namespace AbortManager

theorem isWebRTC_eq_not_isPlayFile (o : Operation) :
    o.IsWebRTC = !o.IsPlayFile := by
  obtain ⟨t, i⟩ := o
  cases t <;> rfl

theorem abortPlayFileLoop_eq (ops : List Operation) :
    abortPlayFileLoop ops
      = (ops.filter (fun o => !o.IsPlayFile),
         ops.filter Operation.IsPlayFile) := by
  induction ops with
  | nil => rfl
  | cons op rest ih =>
    cases h : op.IsPlayFile <;>
      simp [abortPlayFileLoop, ih, List.filter_cons, h]

theorem releaseLoop_attempts (release : String → Except String Unit)
    (channels : List Session.Channel) :
    (releaseLoop release channels).1
      = (channels.filter Session.Channel.enabled).map Session.Channel.id := by
  induction channels with
  | nil => rfl
  | cons ch rest ih =>
    cases h : ch.enabled
    · simp [releaseLoop, h, List.filter_cons, ih]
    · cases hrel : release ch.id <;>
        simp [releaseLoop, h, hrel, List.filter_cons, ih]

/-- Claim C3: `AbortPlayFileOperations` cancels every currently tracked
PlayFile operation and waits on each one's cleanup wait-group before
returning (the second component lists exactly those operations, in
registry order), everything it cancels is a tracked PlayFile operation —
so a WebRTC operation is never cancelled — and immediately after it
returns the registry (first component) tracks zero PlayFile operations
while every previously tracked WebRTC operation is still tracked. -/
theorem C3_abort_playfile_ops :
    ∀ ops : List Operation,
      (AbortPlayFileOperations ops).2 = ops.filter Operation.IsPlayFile ∧
      (AbortPlayFileOperations ops).1
        = ops.filter (fun o => !o.IsPlayFile) ∧
      (∀ o, o ∈ ops → o.IsPlayFile = true →
        o ∈ (AbortPlayFileOperations ops).2) ∧
      (∀ o, o ∈ (AbortPlayFileOperations ops).2 →
        o.IsPlayFile = true ∧ o ∈ ops) ∧
      (∀ o, o ∈ (AbortPlayFileOperations ops).1 → o.IsPlayFile = false) ∧
      (∀ o, o ∈ ops → o.IsWebRTC = true →
        o ∈ (AbortPlayFileOperations ops).1) := by
  intro ops
  unfold AbortPlayFileOperations
  rw [abortPlayFileLoop_eq]
  refine ⟨rfl, rfl, ?_, ?_, ?_, ?_⟩
  · intro o ho hpf
    simpa [List.mem_filter, hpf] using ho
  · intro o ho
    have := List.mem_filter.mp ho
    exact ⟨this.2, this.1⟩
  · intro o ho
    have := (List.mem_filter.mp ho).2
    simpa using this
  · intro o ho hrtc
    rw [isWebRTC_eq_not_isPlayFile] at hrtc
    exact List.mem_filter.mpr ⟨ho, hrtc⟩

/-- Witness for C3 at a concrete input: with one PlayFile and one WebRTC
operation tracked, the PlayFile operation is cancelled and waited on while
the WebRTC operation survives in the registry. -/
theorem C3_abort_playfile_ops_witness :
    (⟨.playFile, 0⟩ : Operation)
        ∈ (AbortPlayFileOperations [⟨.playFile, 0⟩, ⟨.webRTC, 1⟩]).2 ∧
      (⟨.webRTC, 1⟩ : Operation)
        ∈ (AbortPlayFileOperations [⟨.playFile, 0⟩, ⟨.webRTC, 1⟩]).1 :=
  ⟨(C3_abort_playfile_ops [⟨.playFile, 0⟩, ⟨.webRTC, 1⟩]).2.2.1
      ⟨.playFile, 0⟩ (by decide) rfl,
    (C3_abort_playfile_ops [⟨.playFile, 0⟩, ⟨.webRTC, 1⟩]).2.2.2.2.2
      ⟨.webRTC, 1⟩ (by decide) rfl⟩

/-- Claim C7: `AbortAll` cancels every tracked operation of both types and
waits for all of their cleanup wait-groups; a listing failure is returned
as `AbortAll`'s error, with no release attempted; on a successful listing a
release is attempted for every channel reported `enabled == true` — the
attempt list does not depend on the individual release outcomes, so one
channel's failure never stops the release of the remaining channels — and
`AbortAll` reports success. -/
theorem C7_abort_all :
    ∀ (ops : List Operation)
      (listing : Except String (List Session.Channel))
      (release : String → Except String Unit),
      (AbortAll ops listing release).cancelled = ops ∧
      (AbortAll ops listing release).waited = ops ∧
      (∀ e, listing = .error e →
        (AbortAll ops listing release).result = .error e ∧
        (AbortAll ops listing release).releaseAttempts = []) ∧
      (∀ channels, listing = .ok channels →
        (AbortAll ops listing release).result = .ok () ∧
        (AbortAll ops listing release).releaseAttempts
          = (channels.filter Session.Channel.enabled).map
              Session.Channel.id) := by
  intro ops listing release
  cases listing with
  | error e' =>
    refine ⟨rfl, rfl, ?_, ?_⟩
    · intro e he
      cases he
      exact ⟨rfl, rfl⟩
    · intro channels h
      cases h
  | ok chans =>
    refine ⟨rfl, rfl, ?_, ?_⟩
    · intro e he
      cases he
    · intro channels h
      cases h
      exact ⟨rfl, by simpa [AbortAll] using releaseLoop_attempts release chans⟩

/-- Witness for C7 at a concrete input: one enabled channel whose release
fails and another enabled channel after it — both get a release attempt
(the stuck channel does not stop the sweep), the disabled channel gets
none, and `AbortAll` succeeds. -/
theorem C7_abort_all_witness :
    (AbortAll [⟨.playFile, 0⟩]
        (.ok [⟨"1", true⟩, ⟨"2", false⟩, ⟨"3", true⟩])
        (fun _ => .error "boom")).releaseAttempts = ["1", "3"] ∧
      (AbortAll [⟨.playFile, 0⟩]
        (.ok [⟨"1", true⟩, ⟨"2", false⟩, ⟨"3", true⟩])
        (fun _ => .error "boom")).waited = [⟨.playFile, 0⟩] :=
  ⟨((C7_abort_all [⟨.playFile, 0⟩] _ (fun _ => .error "boom")).2.2.2
      [⟨"1", true⟩, ⟨"2", false⟩, ⟨"3", true⟩] rfl).2,
    (C7_abort_all [⟨.playFile, 0⟩]
      (.ok [⟨"1", true⟩, ⟨"2", false⟩, ⟨"3", true⟩])
      (fun _ => .error "boom")).2.1⟩

theorem filter_not_playFile_eq_filter_webRTC (ops : List Operation) :
    ops.filter (fun o => !o.IsPlayFile) = ops.filter Operation.IsWebRTC :=
  List.filter_congr fun o _ => (isWebRTC_eq_not_isPlayFile o).symm

theorem hasActiveOperation_filter_webRTC (ops : List Operation) :
    HasActiveOperation (ops.filter Operation.IsWebRTC)
      = HasActiveWebRTC ops := by
  induction ops with
  | nil => rfl
  | cons o rest ih =>
    cases h : o.IsWebRTC with
    | true => simp [HasActiveOperation, HasActiveWebRTC, List.filter_cons, h]
    | false =>
      simpa [HasActiveOperation, HasActiveWebRTC, List.filter_cons, h]
        using ih

/-- Claim C10: in both abort paths the registry mutation — which removes
the cancelled operations from `am.activeOps` — happens strictly before any
wait on a cleanup wait-group (every event preceding `updateRegistry` in
either trace is a cancellation); consequently, on the registry contents in
force while those waits are still pending, the membership queries already
ignore the cancelled operations: after `AbortAll`'s mutation the registry
is empty and `HasActiveOperation` is `false`, and after
`AbortPlayFileOperations`' mutation `HasActiveOperation` equals
`HasActiveWebRTC` of the old registry — in particular `false` when only
PlayFile operations were tracked, even though their cleanup has not yet
signalled completion. -/
theorem C10_removal_precedes_wait :
    ∀ (ops : List Operation)
      (listing : Except String (List Session.Channel))
      (release : String → Except String Unit),
      (∃ (cs : List Operation) (post : List AbortEvent),
        AbortPlayFileTrace ops
          = cs.map AbortEvent.cancelOp ++ AbortEvent.updateRegistry :: post) ∧
      (∃ (cs : List Operation) (post : List AbortEvent),
        AbortAllTrace ops
          = cs.map AbortEvent.cancelOp ++ AbortEvent.updateRegistry :: post) ∧
      HasActiveOperation (AbortPlayFileOperations ops).1
        = HasActiveWebRTC ops ∧
      (AbortAll ops listing release).newActiveOps = [] ∧
      HasActiveOperation (AbortAll ops listing release).newActiveOps
        = false := by
  intro ops listing release
  have hnew : (AbortAll ops listing release).newActiveOps = [] := by
    cases listing <;> rfl
  refine ⟨⟨ops.filter Operation.IsPlayFile,
      (ops.filter Operation.IsPlayFile).map AbortEvent.waitCleanup
        ++ [AbortEvent.ret], by simp [AbortPlayFileTrace]⟩,
    ⟨ops, ops.map AbortEvent.waitCleanup ++ [AbortEvent.ret],
      by simp [AbortAllTrace]⟩, ?_, hnew, ?_⟩
  · unfold AbortPlayFileOperations
    rw [abortPlayFileLoop_eq]
    simpa [filter_not_playFile_eq_filter_webRTC]
      using hasActiveOperation_filter_webRTC ops
  · rw [hnew]
    rfl

end AbortManager

namespace AudioStreamWriter

theorem chunkDuration_eq (data : List Nat) :
    ChunkDuration data = data.length * 125000 := by
  unfold ChunkDuration
  rw [show (1000000000 : Nat) = 125000 * 8000 from rfl, ← Nat.mul_assoc,
    Nat.mul_div_cancel _ (by norm_num)]

theorem loopEndFrom_eq (chunks : List (List Nat)) (t : Nat) :
    loopEndFrom chunks t = t + (chunks.map ChunkDuration).sum := by
  induction chunks generalizing t with
  | nil => simp [loopEndFrom]
  | cons c rest ih =>
    simp [loopEndFrom, ih]
    omega

theorem loopEnd_eq_totalBytes (chunks : List (List Nat)) :
    LoopEnd chunks = TotalBytes chunks * 1000000000 / 8000 := by
  rw [show TotalBytes chunks * 1000000000 / 8000
      = TotalBytes chunks * 125000 by
    rw [show (1000000000 : Nat) = 125000 * 8000 from rfl, ← Nat.mul_assoc,
      Nat.mul_div_cancel _ (by norm_num)]]
  unfold LoopEnd TotalBytes
  rw [loopEndFrom_eq]
  induction chunks with
  | nil => rfl
  | cons c rest ih =>
    simp only [List.map_cons, List.sum_cons, chunkDuration_eq] at *
    rw [Nat.zero_add] at ih ⊢
    rw [ih, Nat.add_mul]

theorem sendInstantsFrom_append_singleton (cs : List (List Nat))
    (c : List Nat) (t : Nat) :
    sendInstantsFrom (cs ++ [c]) t
      = sendInstantsFrom cs t ++ [loopEndFrom cs t] := by
  induction cs generalizing t with
  | nil => rfl
  | cons c' rest ih =>
    simp [sendInstantsFrom, loopEndFrom, ih]

/-- Counterexample to C9 as stated: a payload of N = 160 bytes queued as a
single chunk.  The send loop transmits it at time 0 and only then sleeps,
so the first and last chunk transmissions coincide — a gap of 0
nanoseconds, strictly less than N/8000 seconds = 20000000 nanoseconds. -/
theorem C9_pacing_counterexample :
    SendInstants [List.replicate 160 0] = [0] ∧
    TotalBytes [List.replicate 160 0] * 1000000000 / 8000 = 20000000 ∧
    (0 : Nat) < 20000000 :=
  ⟨rfl, by simp [TotalBytes], by norm_num⟩

/-- Claim C9 (amended): after forwarding each queued chunk the send loop
sleeps for the chunk's playback time at 8000 bytes per second
(`len * 1000000000 / 8000` nanoseconds), so for a payload of N bytes split
into chunks `cs ++ [c]` the first transmission happens at time 0, the last
transmission at `LoopEnd cs` — i.e. `(N - len c)/8000` seconds — and the
pacing sleep following the last chunk completes exactly `N/8000` seconds
after the first transmission; the `≥ N/8000` bound therefore holds for the
span from the first transmission to the completion of the final pacing
sleep, not for the span between the first and last transmissions. -/
theorem C9_pacing_amended :
    ∀ (cs : List (List Nat)) (c : List Nat),
      SendInstants (cs ++ [c]) = SendInstants cs ++ [LoopEnd cs] ∧
      (SendInstants (cs ++ [c])).head? = some 0 ∧
      LoopEnd cs = TotalBytes cs * 1000000000 / 8000 ∧
      LoopEnd (cs ++ [c]) = TotalBytes (cs ++ [c]) * 1000000000 / 8000 := by
  intro cs c
  refine ⟨sendInstantsFrom_append_singleton cs c 0, ?_,
    loopEnd_eq_totalBytes cs, loopEnd_eq_totalBytes (cs ++ [c])⟩
  cases cs <;> rfl

end AudioStreamWriter

namespace AudioStreamReader

theorem closeStep_preserves_exited {s s' : CloseState} {e : CloseEvt}
    (h : CloseStep s e s') (hx : s.pumpPC = .exited) :
    s'.pumpPC = .exited := by
  cases h with
  | selectDefault h1 h2 => rw [h1] at hx; simp at hx
  | bodyRead h1 => rw [h1] at hx; simp at hx
  | pumpExit h1 => rfl
  | closeBegin h1 => exact hx
  | closeReturn h1 h2 h3 => exact hx
  | close2Return h1 h2 => exact hx

theorem reaches_exited_no_bodyRead {s s' : CloseState} {tr : List CloseEvt}
    (h : Reaches s tr s') (hx : s.pumpPC = .exited) :
    CloseEvt.bodyRead ∉ tr := by
  induction h with
  | refl s => simp
  | step hstep hr ih =>
    intro hmem
    rcases List.mem_cons.mp hmem with heq | hmem'
    · rw [← heq] at hstep
      cases hstep with
      | bodyRead h1 => rw [h1] at hx; simp at hx
    · exact ih (closeStep_preserves_exited hstep hx) hmem'

theorem reaches_append_split {s s'' : CloseState} {t1 t2 : List CloseEvt}
    (h : Reaches s (t1 ++ t2) s'') :
    ∃ mid, Reaches s t1 mid ∧ Reaches mid t2 s'' := by
  induction t1 generalizing s with
  | nil => exact ⟨s, .refl s, h⟩
  | cons e t1' ih =>
    cases h with
    | step hstep hr =>
      obtain ⟨mid, h1, h2⟩ := ih hr
      exact ⟨mid, .step hstep h1, h2⟩

/-- Claim C6: the reader's `Close` is idempotent — a second call changes
nothing — it never returns before the pump task (`streamLoop`) has exited,
and once the first `Close` call has returned, no read of the underlying
HTTP response body ever occurs again: in every execution of the shutdown
protocol from the initial state, no `bodyRead` event follows the
`closeReturn` event. -/
theorem C6_close_shutdown :
    (∀ (t1 t2 : List CloseEvt) (s' : CloseState),
      Reaches initState (t1 ++ CloseEvt.closeReturn :: t2) s' →
      CloseEvt.bodyRead ∉ t2) ∧
    (∀ s s' : CloseState, CloseStep s .closeReturn s' →
      s.pumpPC = .exited) ∧
    (∀ s s' : CloseState, CloseStep s .close2Return s' → s' = s) := by
  refine ⟨?_, ?_, ?_⟩
  · intro t1 t2 s' h
    obtain ⟨mid, _h1, h2⟩ := reaches_append_split h
    cases h2 with
    | step hstep hr =>
      cases hstep with
      | closeReturn honce hret hx =>
        exact reaches_exited_no_bodyRead hr (by simpa using hx)
  · intro s s' h
    cases h with
    | closeReturn h1 h2 h3 => exact h3
  · intro s s' h
    cases h with
    | close2Return h1 h2 => rfl

/-- Witness for C6 on a concrete execution: `Close` fires the once and
closes `stopChan`, the pump exits, `Close` returns, and a second `Close`
call follows; no body read occurs after the first `Close` returned. -/
theorem C6_close_shutdown_witness :
    CloseEvt.bodyRead ∉ [CloseEvt.close2Return] :=
  C6_close_shutdown.1 [CloseEvt.closeBegin, CloseEvt.pumpExit]
    [CloseEvt.close2Return] ⟨.exited, true, true, true⟩
    (.step (.closeBegin _ rfl)
      (.step (.pumpExit _ (by decide))
        (.step (.closeReturn _ rfl rfl rfl)
          (.step (.close2Return _ rfl rfl) (.refl _)))))

end AudioStreamReader

namespace WebRTCHandler

/-- Claim C1 (code evidence): `HandleOffer` in `src/internal/api/webrtc.go`
never consults the abort manager — its outcome is identical for every
registry contents, it emits no registry call on any path (in particular it
never registers a WebRTC operation and never calls
`AbortPlayFileOperations`), and even while another WebRTC operation is
active a fully successful negotiation returns the SDP answer instead of a
conflict rejection. -/
theorem C1_offer_ignores_registry :
    ∀ (ops ops' : List AbortManager.Operation)
      (d p pc t a r ca l : Bool),
      HandleOffer ops d p pc t a r ca l
        = HandleOffer ops' d p pc t a r ca l ∧
      (HandleOffer ops d p pc t a r ca l).2 = [] ∧
      (AbortManager.HasActiveWebRTC ops = true →
        HandleOffer ops true true true true true true true true
          = (.answerSent, [])) := by
  intro ops ops' d p pc t a r ca l
  refine ⟨rfl, ?_, fun _ => rfl⟩
  cases d <;> cases p <;> cases pc <;> cases t <;> cases a <;> cases r <;>
    cases ca <;> cases l <;> rfl

/-- Witness for C1 at a concrete input: with a WebRTC operation already
tracked in the registry, a fully successful offer negotiation still
returns the SDP answer and touches the registry on no path. -/
theorem C1_offer_ignores_registry_witness :
    HandleOffer [⟨.webRTC, 0⟩] true true true true true true true true
      = (.answerSent, []) :=
  (C1_offer_ignores_registry [⟨.webRTC, 0⟩] [] true true true true true
    true true true).2.2 rfl

end WebRTCHandler

namespace PlayFileHandler

/-- Claim C2 (code evidence): `HandlePlayFile` in
`src/internal/api/playfile.go` never consults the abort manager — its
outcome is identical for every registry contents and it emits no registry
call on any path (it neither checks `HasActiveOperation` nor registers a
PlayFile operation), so even while `HasActiveOperation` is `true` a
successful request acquires the channel and plays; the completion wait on
the success path is `len(audioData) * 1000000000 / 8000` nanoseconds, the
payload's playback time at the fixed 8000 bytes-per-second rate. -/
theorem C2_playfile_ignores_registry :
    ∀ (ops ops' : List AbortManager.Operation) (pf ff rd : Bool)
      (data : List Nat) (acquire : Except String AudioSession) (w cx : Bool),
      HandlePlayFile ops pf ff rd data acquire w cx
        = HandlePlayFile ops' pf ff rd data acquire w cx ∧
      (HandlePlayFile ops pf ff rd data acquire w cx).2.1 = [] ∧
      (AbortManager.HasActiveOperation ops = true → ∀ session,
        HandlePlayFile ops true true true data (.ok session) true false
          = (.success, [], [session.channelID],
              data.length * 1000000000 / 8000)) := by
  intro ops ops' pf ff rd data acquire w cx
  refine ⟨rfl, ?_, fun _ session => rfl⟩
  cases pf <;> cases ff <;> cases rd <;> cases acquire <;> cases w <;>
    cases cx <;> rfl

/-- Witness for C2 at a concrete input: with a PlayFile operation already
tracked (`HasActiveOperation` true), a successful 3-byte request still
succeeds — no conflict rejection, no registry call — and waits
`3 * 1000000000 / 8000` nanoseconds. -/
theorem C2_playfile_ignores_registry_witness :
    HandlePlayFile [⟨.playFile, 7⟩] true true true [1, 2, 3]
      (.ok ⟨"1", "s"⟩) true false
        = (.success, [], ["1"], [1, 2, 3].length * 1000000000 / 8000) :=
  (C2_playfile_ignores_registry [⟨.playFile, 7⟩] [] true true true
    [1, 2, 3] (.ok ⟨"1", "s"⟩) true false).2.2 rfl ⟨"1", "s"⟩

end PlayFileHandler
